import Mathlib

/-! Verification model of the Dayly backend core.

This file gives a shallow embedding of the group / membership, daily-send
ledger, photo lifecycle, invite and notification-trigger code of the Dayly
repository (app/api/photos.py, app/api/groups.py, app/api/invites.py,
app/models/schemas.py, app/services/push_service.py), together with theorems
checking the specification claims against it.

Conventions of the embedding:
- timestamps and calendar dates are natural numbers;
- the Supabase relational store is modelled as lists of rows inside a DB
  record; a select with eq / gte / is filters becomes a List.filter, and the
  single() modifier becomes List.head? on the filtered rows;
- a failing store insert (uniqueness violation) is modelled by Option: none
  means the client library raised, which the Python code either catches in a
  generic handler returning HTTP 500 or checks via the data field;
- each endpoint returns its HTTP response together with the store state it
  leaves behind, so partial effects of failed requests stay visible. -/

namespace Dayly

/-- ASCII uppercase of a string, modelling the Python str.upper call
(invite codes are ASCII). -/
def strUpper (s : String) : String := String.mk (s.data.map Char.toUpper)

/-- ASCII lowercase of a string, modelling the Python str.lower call. -/
def strLower (s : String) : String := String.mk (s.data.map Char.toLower)

/-- Whitespace trim, modelling the Python str.strip call used by the
GroupCreate name validator. -/
def strTrim (s : String) : String :=
  String.mk (((s.data.dropWhile Char.isWhitespace).reverse.dropWhile Char.isWhitespace).reverse)

/-- Character membership test on a string, modelling the Python test
for a dot inside the uploaded file name. -/
def strContains (s : String) (c : Char) : Bool := s.data.contains c

/-- Suffix after the last dot, modelling the Python expression
filename.split(".")[-1]. -/
def afterLastDot (l : List Char) : List Char :=
  (l.reverse.takeWhile (fun c => c != '.')).reverse

/-- HTTP error as raised through fastapi.HTTPException: status code plus
detail string. -/
structure HTTPError where
  status : Nat
  detail : String
deriving Repr, DecidableEq

/-- Row of the profiles table (the fields the core endpoints read). -/
structure Profile where
  id : String
  firstName : String
  phoneNumber : String
deriving Repr, DecidableEq

/-- Row of the groups table. -/
structure Group where
  id : String
  name : String
  createdBy : String
deriving Repr, DecidableEq

/-- Row of the group_members table. -/
structure Membership where
  groupId : String
  userId : String
  isActive : Bool
deriving Repr, DecidableEq

/-- Row of the daily_sends table. -/
structure DailySend where
  userId : String
  groupId : String
  sentDate : Nat
deriving Repr, DecidableEq

/-- Row of the photos table. -/
structure Photo where
  id : String
  groupId : String
  senderId : String
  storagePath : String
  createdAt : Nat
  expiresAt : Nat
deriving Repr, DecidableEq

/-- Row of the invites table. -/
structure Invite where
  code : String
  groupId : String
  phoneNumber : String
  invitedBy : String
  createdAt : Nat
  expiresAt : Nat
  usedAt : Option Nat
  usedBy : Option String
deriving Repr, DecidableEq

/-- Row of the user_devices table. -/
structure DeviceReg where
  userId : String
  deviceToken : String
  platform : String
deriving Repr, DecidableEq

/-- The backing store: the Supabase tables the core endpoints touch, plus
the photo blob store modelled as the set of stored storage paths. -/
structure DB where
  profiles : List Profile
  groups : List Group
  groupMembers : List Membership
  dailySends : List DailySend
  photos : List Photo
  invites : List Invite
  userDevices : List DeviceReg
  blobs : List String
deriving Repr, DecidableEq

/-- Empty store. -/
def DB.empty : DB := ⟨[], [], [], [], [], [], [], []⟩

/-- Membership check used by every guarded endpoint: select on group_members
with eq group_id, eq user_id, eq is_active true, nonempty result. -/
def hasActiveMembership (db : DB) (g u : String) : Bool :=
  db.groupMembers.any (fun m => m.groupId == g && m.userId == u && m.isActive)

/-- Daily-ledger check: select on daily_sends with eq user_id, eq group_id,
eq sent_date, nonempty result. -/
def hasSentToday (db : DB) (u g : String) (today : Nat) : Bool :=
  db.dailySends.any (fun d => d.userId == u && d.groupId == g && d.sentDate == today)

/-- Count of active memberships of one user, as read by create_group via
select on group_members with eq user_id, eq is_active true. -/
def activeMembershipCount (db : DB) (u : String) : Nat :=
  (db.groupMembers.filter (fun m => m.userId == u && m.isActive)).length

/-- Membership row lookup ignoring the active flag, as used by redeem_invite
and send_invites (select with eq group_id, eq user_id only). -/
def findMembershipRow (db : DB) (g u : String) : Option Membership :=
  (db.groupMembers.filter (fun m => m.groupId == g && m.userId == u)).head?

/-- Primary-key check on the photos table. -/
def photoIdExists (db : DB) (pid : String) : Bool :=
  db.photos.any (fun p => p.id == pid)

/-- Modelled from the spec: the photos table gives each new row
expires_at = created + 48h (the schema SQL file that sets this default is
not part of the snapshot; section 3 of the spec fixes the 48h window). -/
def PHOTO_TTL : Nat := 48 * 3600

/-- Insert into photos. Modelled from the spec: the primary-key constraint
on the photo id makes the insert fail when a row with that id exists
(schema SQL not in the snapshot); none models the raised client error. -/
def insertPhoto (db : DB) (pid g u path : String) (now : Nat) :
    Option (DB × Photo) :=
  if photoIdExists db pid then none
  else
    let p : Photo := ⟨pid, g, u, path, now, now + PHOTO_TTL⟩
    some ({ db with photos := db.photos ++ [p] }, p)

/-- Insert into daily_sends. Modelled from the spec: the store enforces a
uniqueness constraint on (user, group, date) (section 6 of the spec; the
schema SQL is not in the snapshot), so the insert fails when a record with
the same key already exists; none models the raised client error. -/
def insertDailySend (db : DB) (u g : String) (d : Nat) : Option DB :=
  if hasSentToday db u g d then none
  else some { db with dailySends := db.dailySends ++ [⟨u, g, d⟩] }

/-- Upsert into daily_sends as issued by mark_sent_today: when the row
already exists the upsert replaces it with identical field values, so the
store is unchanged; otherwise the row is inserted. Never fails. -/
def upsertDailySend (db : DB) (u g : String) (d : Nat) : DB :=
  if hasSentToday db u g d then db
  else { db with dailySends := db.dailySends ++ [⟨u, g, d⟩] }

/-- Content types accepted by upload_photo (photos.py line 51). -/
def allowedContentTypes : List String :=
  ["image/jpeg", "image/jpg", "image/png", "image/heif", "image/heic"]

/-- Storage path built by upload_photo (photos.py line 57). -/
def storagePathFor (g u pid ext : String) : String :=
  g ++ "/" ++ u ++ "/" ++ pid ++ "." ++ ext

/-- File extension chosen by upload_photo (photos.py line 55): the part of
the file name after the last dot, or jpg when the name has no dot. -/
def extOf (fileName : String) : String :=
  if strContains fileName '.' then String.mk (afterLastDot fileName.data) else "jpg"

/-- Decidable equality of endpoint outcomes. -/
instance {ε α : Type} [DecidableEq ε] [DecidableEq α] : DecidableEq (Except ε α) :=
  fun a b =>
  match a, b with
  | Except.ok x, Except.ok y =>
    if h : x = y then Decidable.isTrue (h ▸ rfl)
    else Decidable.isFalse (fun hc => h (Except.ok.inj hc))
  | Except.error x, Except.error y =>
    if h : x = y then Decidable.isTrue (h ▸ rfl)
    else Decidable.isFalse (fun hc => h (Except.error.inj hc))
  | Except.ok _, Except.error _ => Decidable.isFalse (fun hc => Except.noConfusion hc)
  | Except.error _, Except.ok _ => Decidable.isFalse (fun hc => Except.noConfusion hc)

/-- Outcome of the photo upload endpoint: the HTTP response (photo id and
expiry on success), the store state left behind, and the trace of push
dispatches made by the endpoint. -/
structure UploadResult where
  resp : Except HTTPError (String × Nat)
  db : DB
  pushDispatches : List DeviceReg
deriving Repr, DecidableEq

/-- Commit phase of upload_photo (photos.py lines 54 to 101): the code that
runs after the membership, daily-limit and file checks have passed. It is
given the store state at that moment, which a concurrent request may have
changed since the checks. Steps: store the blob; insert the photos row (on
failure the blob is removed and HTTP 500 returned, photos.py lines 81 to 87);
insert the daily_sends row (photos.py lines 90 to 94: the result is not
inspected and a raised uniqueness violation is only caught by the generic
handler at line 105, which returns HTTP 500 without any compensating
delete); no push notification is dispatched anywhere in the endpoint
(photos.py line 96 is a TODO comment). -/
def uploadPhotoCommit (db : DB) (g u pid ext : String) (today now : Nat) :
    UploadResult :=
  let path := storagePathFor g u pid ext
  let db1 := { db with blobs := db.blobs ++ [path] }
  match insertPhoto db1 pid g u path now with
  | none =>
    let db2 := { db1 with blobs := db1.blobs.filter (fun b => b != path) }
    ⟨Except.error ⟨500, "Failed to create photo record"⟩, db2, []⟩
  | some (db2, p) =>
    match insertDailySend db2 u g today with
    | none =>
      ⟨Except.error ⟨500, "duplicate key value violates unique constraint"⟩, db2, []⟩
    | some db3 => ⟨Except.ok (p.id, p.expiresAt), db3, []⟩

/-- The upload_photo endpoint (photos.py lines 12 to 107): membership check,
daily-limit check, file size and content-type checks, then the commit
phase. The generated uuid for the photo is passed in as pid. -/
def upload_photo (db : DB) (g u : String) (fileSize : Nat)
    (contentType fileName pid : String) (today now : Nat) : UploadResult :=
  if !hasActiveMembership db g u then
    ⟨Except.error ⟨403, "Not a member of this group"⟩, db, []⟩
  else if hasSentToday db u g today then
    ⟨Except.error ⟨400, "Already sent photo to this group today"⟩, db, []⟩
  else if fileSize > 10 * 1024 * 1024 then
    ⟨Except.error ⟨413, "File too large"⟩, db, []⟩
  else if !allowedContentTypes.contains contentType then
    ⟨Except.error ⟨415, "Invalid file type"⟩, db, []⟩
  else uploadPhotoCommit db g u pid (extOf fileName) today now

/-- Outcome of an endpoint that returns no payload. -/
structure ActionResult where
  resp : Except HTTPError Unit
  db : DB
deriving Repr, DecidableEq

/-- The confirm_upload endpoint (photos.py lines 135 to 164): inserts the
photos row and the daily_sends row directly, with no membership check and
no daily-limit check; a raised insert error is caught by the generic
handler and returned as HTTP 500, leaving earlier effects in place. -/
def confirm_upload (db : DB) (pid g u : String) (today now : Nat) :
    ActionResult :=
  let path := g ++ "/" ++ u ++ "/" ++ pid ++ ".jpg"
  match insertPhoto db pid g u path now with
  | none => ⟨Except.error ⟨500, "duplicate key value violates unique constraint"⟩, db⟩
  | some (db1, _) =>
    match insertDailySend db1 u g today with
    | none =>
      ⟨Except.error ⟨500, "duplicate key value violates unique constraint"⟩, db1⟩
    | some db2 => ⟨Except.ok (), db2⟩

/-- Signed access URL for a stored blob, modelling the external blob-store
capability create_signed_url with a 1h TTL (photos.py lines 198 to 201). -/
def signedUrl (path : String) : String := "signed:" ++ path

/-- First name of a profile as joined by the photos listing, with the
Unknown fallback of photos.py line 207. -/
def profileFirstName (db : DB) (u : String) : String :=
  match (db.profiles.filter (fun pr => pr.id == u)).head? with
  | some pr => pr.firstName
  | none => "Unknown"

/-- Photo view returned by the listing endpoint. -/
structure PhotoView where
  id : String
  groupId : String
  senderId : String
  senderName : String
  url : String
  createdAt : Nat
  expiresAt : Nat
deriving Repr, DecidableEq

/-- Insertion step of the newest-first ordering. -/
def insertByCreatedDesc (p : Photo) : List Photo → List Photo
  | [] => [p]
  | q :: qs =>
    if p.createdAt ≥ q.createdAt then p :: q :: qs else q :: insertByCreatedDesc p qs

/-- Newest-first ordering on created_at, modelling the store order-by with
desc true in photos.py line 192. -/
def orderByCreatedDesc : List Photo → List Photo
  | [] => []
  | p :: ps => insertByCreatedDesc p (orderByCreatedDesc ps)

/-- The get_todays_photos endpoint (photos.py lines 166 to 218): membership
check, then the photos of the group whose expires_at is at least now
(the query uses gte on expires_at), ordered newest first, each mapped to a
view with a fresh signed URL and the sender first name. -/
def get_todays_photos (db : DB) (g u : String) (now : Nat) :
    Except HTTPError (List PhotoView) :=
  if !hasActiveMembership db g u then
    Except.error ⟨403, "Not a member of this group"⟩
  else
    let sel := db.photos.filter (fun p => p.groupId == g && p.expiresAt ≥ now)
    Except.ok ((orderByCreatedDesc sel).map (fun p =>
      ⟨p.id, p.groupId, p.senderId, profileFirstName db p.senderId,
        signedUrl p.storagePath, p.createdAt, p.expiresAt⟩))

/-- The mark_sent_today endpoint (groups.py lines 239 to 271): membership
check, then an upsert into daily_sends; the upsert succeeds whether or not
a record for (user, group, today) already exists. -/
def mark_sent_today (db : DB) (g u : String) (today : Nat) : ActionResult :=
  if !hasActiveMembership db g u then
    ⟨Except.error ⟨403, "Not a member of this group"⟩, db⟩
  else ⟨Except.ok (), upsertDailySend db u g today⟩

/-- Count of photos of a group created today, as read by the push service
query in push_service.py lines 78 to 82 (gte on created_at against the
start of the day). -/
def photosCreatedTodayCount (db : DB) (g : String) (todayStart : Nat) : Nat :=
  (db.photos.filter (fun p => p.groupId == g && p.createdAt ≥ todayStart)).length

/-- The first-photo test of PushNotificationService (push_service.py lines
72 to 85): true when the count of the group photos created today is at
most one. -/
def is_first_photo_today (db : DB) (g : String) (todayStart : Nat) : Bool :=
  photosCreatedTodayCount db g todayStart ≤ 1

/-- Device tokens of the active members of a group other than the sender
(push_service.py lines 109 to 130). -/
def memberDeviceTokens (db : DB) (g sender : String) : List DeviceReg :=
  let memberIds := (db.groupMembers.filter
    (fun m => m.groupId == g && m.isActive && m.userId != sender)).map
      (fun m => m.userId)
  db.userDevices.filter (fun d => memberIds.contains d.userId)

/-- The send_group_notification method of PushNotificationService
(push_service.py lines 19 to 70): no-op unless the first-photo test holds
and the group exists; otherwise one dispatch per recipient device token
with the ios platform (the send loop in lines 132 to 145 only sends for
ios). The returned list is the fan-out trace. -/
def send_group_notification (db : DB) (g sender : String) (todayStart : Nat) :
    List DeviceReg :=
  if !is_first_photo_today db g todayStart then []
  else if (db.groups.filter (fun gr => gr.id == g)).head? = none then []
  else (memberDeviceTokens db g sender).filter (fun d => d.platform == "ios")

/-- E.164 phone test of schemas.py: regex plus, one digit 1 to 9, then 1 to
14 further digits. -/
def phoneRegexOk (s : String) : Bool :=
  match s.data with
  | '+' :: d :: rest =>
    d.isDigit && d != '0' && rest.all Char.isDigit &&
      1 ≤ rest.length && rest.length ≤ 14
  | _ => false

/-- Validation of the GroupCreate request body (schemas.py lines 56 to 69,
pydantic): the name field constraints min_length 1 and max_length 50 run
first on the raw name, then the validator strips whitespace; the phone list
is checked against the E.164 regex. The returned name is the stripped one.
A failure becomes the HTTP 422 response produced by FastAPI. -/
def validateGroupCreate (name : String) (phones : List String) :
    Except HTTPError (String × List String) :=
  if name.length < 1 then Except.error ⟨422, "name: ensure this value has at least 1 characters"⟩
  else if name.length > 50 then Except.error ⟨422, "name: ensure this value has at most 50 characters"⟩
  else if !phones.all phoneRegexOk then Except.error ⟨422, "Invalid phone number format"⟩
  else Except.ok (strTrim name, phones)

/-- Outcome of the group creation endpoint: response carries the id and
name on success. -/
structure CreateGroupResult where
  resp : Except HTTPError (String × String)
  db : DB
deriving Repr, DecidableEq

/-- Handler body of create_group (groups.py lines 92 to 143), applied to
the already validated request: the active-membership count gate at five,
a second name length check, the groups insert, the group_members insert
for the creator (active by default: modelled from the spec, section 4.1,
as the schema SQL with the is_active default is not in the snapshot), then
the loop rejecting member phones that do not start with a plus sign; note
the loop runs after the group and membership are created. The generated
group id is passed in as gid. -/
def createGroupHandler (db : DB) (u name : String) (phones : List String)
    (gid : String) : CreateGroupResult :=
  if activeMembershipCount db u ≥ 5 then
    ⟨Except.error ⟨400, "Maximum 5 groups allowed"⟩, db⟩
  else if name.length > 50 then
    ⟨Except.error ⟨400, "Group name too long"⟩, db⟩
  else
    let db1 := { db with groups := db.groups ++ [(⟨gid, name, u⟩ : Group)] }
    let db2 := { db1 with groupMembers :=
      db1.groupMembers ++ [(⟨gid, u, true⟩ : Membership)] }
    if phones.all (fun p => p.startsWith "+") then ⟨Except.ok (gid, name), db2⟩
    else ⟨Except.error ⟨400, "Invalid phone number format"⟩, db2⟩

/-- The create_group endpoint: pydantic validation of the request body,
then the handler. -/
def create_group (db : DB) (u rawName : String) (phones : List String)
    (gid : String) : CreateGroupResult :=
  match validateGroupCreate rawName phones with
  | Except.error e => ⟨Except.error e, db⟩
  | Except.ok (name, phs) => createGroupHandler db u name phs gid

/-- Alphabet used by generate_invite_code (invites.py line 14):
string.ascii_uppercase plus string.digits, 36 characters. -/
def inviteAlphabet : List Char := "ABCDEFGHIJKLMNOPQRSTUVWXYZ0123456789".data

/-- One draw of secrets.choice over the alphabet, fed by an abstract random
index. -/
def invitePick (n : Nat) : Char := inviteAlphabet.getD (n % 36) 'A'

/-- The generate_invite_code function (invites.py lines 12 to 14): six
independent draws from the alphabet. The randomness of secrets.choice is
modelled by a stream of indices, read at positions k to k + 5. -/
def generate_invite_code (stream : Nat → Nat) (k : Nat) : String :=
  String.mk ((List.range 6).map (fun i => invitePick (stream (k + i))))

/-- Recent-invite suppression check of send_invites (invites.py lines 90 to
99): an invite to the same phone and group created within the last day. -/
def hasRecentInvite (db : DB) (phone g : String) (now : Nat) : Bool :=
  db.invites.any (fun i =>
    i.phoneNumber == phone && i.groupId == g && i.createdAt ≥ now - 86400)

/-- Validity filter on invites used by redeem and by the live-code scope:
matching code, not yet used, not expired (the queries use gte on
expires_at and is null on used_at). -/
def validInvite (i : Invite) (codeU : String) (now : Nat) : Bool :=
  i.code == codeU && i.expiresAt ≥ now && i.usedAt == none

/-- Modelled from the spec: invite-code uniqueness is enforced by a store
constraint scoped to unexpired, unredeemed rows (section 5 of the spec; the
schema SQL is not in the snapshot). -/
def liveCodeExists (db : DB) (c : String) (now : Nat) : Bool :=
  db.invites.any (fun i => validInvite i c now)

/-- Insert into invites; fails when a live invite already carries the same
code (see liveCodeExists). -/
def insertInvite (db : DB) (inv : Invite) (now : Nat) : Option DB :=
  if liveCodeExists db inv.code now then none
  else some { db with invites := db.invites ++ [inv] }

/-- Per-phone body of the send_invites loop (invites.py lines 89 to 126):
skip when a recent invite exists; otherwise generate one code, build the
invite with a seven-day expiry, attempt the insert, and on success record
the sent entry. The insert result is only checked through its data field
(line 113), so a failed insert silently skips the phone; no second code is
ever generated. The third component counts the generate_invite_code calls
made for this phone. -/
def processInvitePhone (db : DB) (g u phone : String) (now : Nat)
    (stream : Nat → Nat) (k : Nat) : DB × Option (String × String) × Nat :=
  if hasRecentInvite db phone g now then (db, none, 0)
  else
    let code := generate_invite_code stream k
    let inv : Invite := ⟨code, g, phone, u, now, now + 7 * 86400, none, none⟩
    match insertInvite db inv now with
    | none => (db, none, 1)
    | some db1 => (db1, some (phone, code), 1)

/-- Outcome of the invite redemption endpoint: the group id on success. -/
structure RedeemResult where
  resp : Except HTTPError String
  db : DB
deriving Repr, DecidableEq

/-- Lookup of a redeemable invite (invites.py lines 187 to 193): eq on the
uppercased code, gte on expires_at, is null on used_at, first row. -/
def findValidInvite (db : DB) (codeU : String) (now : Nat) : Option Invite :=
  (db.invites.filter (fun i => validInvite i codeU now)).head?

/-- Reactivation update of redeem_invite (invites.py lines 210 to 214). -/
def setMembershipActive (db : DB) (g u : String) : DB :=
  { db with groupMembers := db.groupMembers.map (fun m =>
      if m.groupId == g && m.userId == u then { m with isActive := true } else m) }

/-- Marking an invite used (invites.py lines 225 to 228): the update hits
every invite row whose code equals the uppercased input. -/
def markInviteUsed (db : DB) (codeU : String) (now : Nat) (u : String) : DB :=
  { db with invites := db.invites.map (fun i =>
      if i.code == codeU then { i with usedAt := some now, usedBy := some u } else i) }

/-- The redeem_invite endpoint (invites.py lines 179 to 233): find a valid
invite under the uppercased code (404 when none), then look at the caller
membership row of the target group: reactivate an inactive row, reject an
active one with 400, or insert a fresh active row (active by default:
modelled from the spec, section 4.4, as the schema SQL is not in the
snapshot); finally mark the invite used. No group-count cap is checked
anywhere in the endpoint. -/
def redeem_invite (db : DB) (code u : String) (now : Nat) : RedeemResult :=
  match findValidInvite db (strUpper code) now with
  | none => ⟨Except.error ⟨404, "Invalid or expired invite code"⟩, db⟩
  | some inv =>
    match findMembershipRow db inv.groupId u with
    | some m =>
      if !m.isActive then
        ⟨Except.ok inv.groupId,
          markInviteUsed (setMembershipActive db inv.groupId u) (strUpper code) now u⟩
      else ⟨Except.error ⟨400, "Already a member of this group"⟩, db⟩
    | none =>
      ⟨Except.ok inv.groupId,
        markInviteUsed { db with groupMembers :=
          db.groupMembers ++ [⟨inv.groupId, u, true⟩] } (strUpper code) now u⟩

/-- Helper: a head of a filtered list is a member of the list and satisfies
the filter predicate. -/
theorem head_filter_spec {α : Type} (p : α → Bool) (l : List α) (a : α)
    (h : (l.filter p).head? = some a) : a ∈ l ∧ p a = true := by
  have hm : a ∈ l.filter p := by
    cases hl : l.filter p with
    | nil => rw [hl] at h; cases h
    | cons b bs =>
      rw [hl] at h
      simp only [List.head?_cons, Option.some.injEq] at h
      subst h
      exact List.mem_cons_self _ _
  exact List.mem_filter.mp hm

/-- C2: the claim says mark-sent inserts a DailySendRecord and fails with
Conflict when one already exists for the same (user, group, day). In the
code the record for (u1, g1, day 7) is already present, yet mark_sent_today
returns success: groups.py line 260 issues an upsert, so the duplicate is
silently absorbed and no conflict is ever surfaced. -/
theorem C2_counterexample :
    hasSentToday (⟨[], [], [⟨"g1", "u1", true⟩], [⟨"u1", "g1", 7⟩],
      [], [], [], []⟩ : DB) "u1" "g1" 7 = true ∧
    (mark_sent_today (⟨[], [], [⟨"g1", "u1", true⟩], [⟨"u1", "g1", 7⟩],
      [], [], [], []⟩ : DB) "g1" "u1" 7).resp = Except.ok () := by
  constructor <;> decide

/-- C2 (amended): mark_sent_today upserts the daily-send record for an
active member: the call always succeeds, the record for (user, group,
today) is present afterwards, and when the record already existed the
store is left unchanged, so a second mark for the same triple is an
idempotent no-op rather than a Conflict. -/
theorem mark_sent_today_upserts (db : DB) (g u : String) (today : Nat)
    (hm : hasActiveMembership db g u = true) :
    (mark_sent_today db g u today).resp = Except.ok () ∧
    hasSentToday (mark_sent_today db g u today).db u g today = true ∧
    (hasSentToday db u g today = true → (mark_sent_today db g u today).db = db) := by
  have hstep : mark_sent_today db g u today =
      ⟨Except.ok (), upsertDailySend db u g today⟩ := by
    unfold mark_sent_today
    rw [hm]
    simp
  rw [hstep]
  refine ⟨rfl, ?_, ?_⟩
  · unfold upsertDailySend
    by_cases hs : hasSentToday db u g today = true
    · rw [if_pos hs]; exact hs
    · rw [if_neg hs]
      simp [hasSentToday, List.any_append]
  · intro hs
    unfold upsertDailySend
    rw [if_pos hs]

/-- C2 witness: the amended behavior evaluated on a store that already has
the record. -/
theorem mark_sent_today_upserts_witness :
    (mark_sent_today (⟨[], [], [⟨"g1", "u1", true⟩], [⟨"u1", "g1", 7⟩],
      [], [], [], []⟩ : DB) "g1" "u1" 7).resp = Except.ok () ∧
    (mark_sent_today (⟨[], [], [⟨"g1", "u1", true⟩], [⟨"u1", "g1", 7⟩],
      [], [], [], []⟩ : DB) "g1" "u1" 7).db =
      (⟨[], [], [⟨"g1", "u1", true⟩], [⟨"u1", "g1", 7⟩], [], [], [], []⟩ : DB) := by
  have h := mark_sent_today_upserts
    (⟨[], [], [⟨"g1", "u1", true⟩], [⟨"u1", "g1", 7⟩], [], [], [], []⟩ : DB)
    "g1" "u1" 7 (by decide)
  exact ⟨h.1, h.2.2 (by decide)⟩

/-- C5: a user with five or more active memberships cannot create a group:
create_group leaves the store untouched, fails, and when the request body
passes validation the failure is the 400 group-cap error of groups.py
line 108. -/
theorem create_group_cap_enforced (db : DB) (u rawName : String)
    (phones : List String) (gid : String)
    (hcap : 5 ≤ activeMembershipCount db u) :
    (create_group db u rawName phones gid).db = db ∧
    (∃ e, (create_group db u rawName phones gid).resp = Except.error e) ∧
    ∀ nm phs, validateGroupCreate rawName phones = Except.ok (nm, phs) →
      (create_group db u rawName phones gid).resp =
        Except.error ⟨400, "Maximum 5 groups allowed"⟩ := by
  cases hv : validateGroupCreate rawName phones with
  | error e =>
    have hgoal : create_group db u rawName phones gid = ⟨Except.error e, db⟩ := by
      unfold create_group
      rw [hv]
    refine ⟨by rw [hgoal], ⟨e, by rw [hgoal]⟩, ?_⟩
    intro nm phs hok
    exact Except.noConfusion hok
  | ok pr =>
    obtain ⟨nm, phs⟩ := pr
    have hgoal : create_group db u rawName phones gid =
        ⟨Except.error ⟨400, "Maximum 5 groups allowed"⟩, db⟩ := by
      unfold create_group
      rw [hv]
      show createGroupHandler db u nm phs gid = _
      unfold createGroupHandler
      rw [if_pos (show activeMembershipCount db u ≥ 5 from hcap)]
    exact ⟨by rw [hgoal], ⟨_, by rw [hgoal]⟩, fun _ _ _ => by rw [hgoal]⟩

/-- C5 witness: the cap evaluated for a user who is an active member of
five groups. -/
theorem create_group_cap_enforced_witness :
    (create_group (⟨[], [], [⟨"g1", "u1", true⟩, ⟨"g2", "u1", true⟩,
        ⟨"g3", "u1", true⟩, ⟨"g4", "u1", true⟩, ⟨"g5", "u1", true⟩],
      [], [], [], [], []⟩ : DB) "u1" "Hi" [] "g9").resp =
      Except.error ⟨400, "Maximum 5 groups allowed"⟩ ∧
    (create_group (⟨[], [], [⟨"g1", "u1", true⟩, ⟨"g2", "u1", true⟩,
        ⟨"g3", "u1", true⟩, ⟨"g4", "u1", true⟩, ⟨"g5", "u1", true⟩],
      [], [], [], [], []⟩ : DB) "u1" "Hi" [] "g9").db =
      (⟨[], [], [⟨"g1", "u1", true⟩, ⟨"g2", "u1", true⟩, ⟨"g3", "u1", true⟩,
        ⟨"g4", "u1", true⟩, ⟨"g5", "u1", true⟩], [], [], [], [], []⟩ : DB) := by
  have h := create_group_cap_enforced
    (⟨[], [], [⟨"g1", "u1", true⟩, ⟨"g2", "u1", true⟩, ⟨"g3", "u1", true⟩,
      ⟨"g4", "u1", true⟩, ⟨"g5", "u1", true⟩], [], [], [], [], []⟩ : DB)
    "u1" "Hi" [] "g9" (by decide)
  exact ⟨h.2.2 "Hi" [] (by decide), h.1⟩

/-- C7: the claim says a name that is empty after trimming (including a
whitespace-only name) is rejected and no group is created. On the code a
single-space name passes validation: the pydantic min_length check runs on
the raw name before the strip validator (schemas.py lines 57 to 62), so
the request succeeds and a group whose name is the empty string is
created. -/
theorem C7_counterexample :
    (create_group DB.empty "u1" " " [] "g1").resp = Except.ok ("g1", "") ∧
    (create_group DB.empty "u1" " " [] "g1").db.groups = [⟨"g1", "", "u1"⟩] := by
  constructor <;> decide

/-- C7 (amended): a CreateGroup request whose raw name is empty (zero
length) or longer than 50 characters fails with a validation error and no
group is created; a whitespace-only nonempty name, however, passes
validation and creates a group whose stored name is empty after trimming. -/
theorem create_group_name_rejects (db : DB) (u rawName : String)
    (phones : List String) (gid : String)
    (h : rawName.length = 0 ∨ 50 < rawName.length) :
    (create_group db u rawName phones gid).db = db ∧
    ∃ msg, (create_group db u rawName phones gid).resp = Except.error ⟨422, msg⟩ := by
  cases h with
  | inl h0 =>
    have h1 : rawName.length < 1 := by omega
    have hval : validateGroupCreate rawName phones =
        Except.error ⟨422, "name: ensure this value has at least 1 characters"⟩ := by
      unfold validateGroupCreate
      rw [if_pos h1]
    have hgoal : create_group db u rawName phones gid =
        ⟨Except.error ⟨422, "name: ensure this value has at least 1 characters"⟩, db⟩ := by
      unfold create_group
      rw [hval]
    exact ⟨by rw [hgoal], _, by rw [hgoal]⟩
  | inr h50 =>
    have h1 : ¬ rawName.length < 1 := by omega
    have hval : validateGroupCreate rawName phones =
        Except.error ⟨422, "name: ensure this value has at most 50 characters"⟩ := by
      unfold validateGroupCreate
      rw [if_neg h1, if_pos (show rawName.length > 50 from h50)]
    have hgoal : create_group db u rawName phones gid =
        ⟨Except.error ⟨422, "name: ensure this value has at most 50 characters"⟩, db⟩ := by
      unfold create_group
      rw [hval]
    exact ⟨by rw [hgoal], _, by rw [hgoal]⟩

/-- C7 witness: the amended rejection evaluated on the empty name. -/
theorem create_group_name_rejects_witness :
    (create_group DB.empty "u1" "" [] "g1").db = DB.empty ∧
    (create_group DB.empty "u1" "" [] "g1").resp =
      Except.error ⟨422, "name: ensure this value has at least 1 characters"⟩ := by
  have h := create_group_name_rejects DB.empty "u1" "" [] "g1" (Or.inl (by decide))
  exact ⟨h.1, by decide⟩

/-- C1: the claim (with the spec) requires that when the daily-send ledger
insert of a photo submission fails because the (user, group, date) record
already exists, the stored blob and the photo row are deleted and the
caller receives the AlreadySent business error. The code diverges: with
the checks passed on the first store state (no ledger record yet), a
concurrent request inserts the record, and the commit phase then fails the
ledger insert with the raised uniqueness violation caught only by the
generic handler: the caller receives HTTP 500 and both the photo row and
the blob remain in the store. -/
theorem C1_divergence :
    hasActiveMembership (⟨[], [], [⟨"g1", "u1", true⟩], [], [], [], [], []⟩ : DB)
      "g1" "u1" = true ∧
    hasSentToday (⟨[], [], [⟨"g1", "u1", true⟩], [], [], [], [], []⟩ : DB)
      "u1" "g1" 7 = false ∧
    (uploadPhotoCommit (⟨[], [], [⟨"g1", "u1", true⟩], [⟨"u1", "g1", 7⟩],
        [], [], [], []⟩ : DB) "g1" "u1" "p1" "jpg" 7 50).resp =
      Except.error ⟨500, "duplicate key value violates unique constraint"⟩ ∧
    photoIdExists (uploadPhotoCommit (⟨[], [], [⟨"g1", "u1", true⟩],
      [⟨"u1", "g1", 7⟩], [], [], [], []⟩ : DB) "g1" "u1" "p1" "jpg" 7 50).db
      "p1" = true ∧
    (uploadPhotoCommit (⟨[], [], [⟨"g1", "u1", true⟩], [⟨"u1", "g1", 7⟩],
      [], [], [], []⟩ : DB) "g1" "u1" "p1" "jpg" 7 50).db.blobs =
      ["g1/u1/p1.jpg"] := by
  refine ⟨by decide, by decide, by decide, by decide, by decide⟩

/-- C4: the claim says the notification trigger fans out exactly when the
count of the group photos on the submission day, taken after the commit,
is one. The code diverges: upload_photo never invokes the push service at
all (photos.py line 96 is a TODO comment), so even the first photo of the
day produces an empty dispatch trace, although the push service evaluated
on the committed state would have fanned out to the device token of the
other active member. -/
theorem C4_divergence :
    (upload_photo (⟨[], [⟨"g1", "Family", "u1"⟩],
      [⟨"g1", "u1", true⟩, ⟨"g1", "u2", true⟩], [], [], [],
      [⟨"u2", "tok1", "ios"⟩], []⟩ : DB)
      "g1" "u1" 1000 "image/jpeg" "a.jpg" "p1" 7 50).resp =
      Except.ok ("p1", 172850) ∧
    (upload_photo (⟨[], [⟨"g1", "Family", "u1"⟩],
      [⟨"g1", "u1", true⟩, ⟨"g1", "u2", true⟩], [], [], [],
      [⟨"u2", "tok1", "ios"⟩], []⟩ : DB)
      "g1" "u1" 1000 "image/jpeg" "a.jpg" "p1" 7 50).pushDispatches = [] ∧
    photosCreatedTodayCount (upload_photo (⟨[], [⟨"g1", "Family", "u1"⟩],
      [⟨"g1", "u1", true⟩, ⟨"g1", "u2", true⟩], [], [], [],
      [⟨"u2", "tok1", "ios"⟩], []⟩ : DB)
      "g1" "u1" 1000 "image/jpeg" "a.jpg" "p1" 7 50).db "g1" 0 = 1 ∧
    send_group_notification (upload_photo (⟨[], [⟨"g1", "Family", "u1"⟩],
      [⟨"g1", "u1", true⟩, ⟨"g1", "u2", true⟩], [], [], [],
      [⟨"u2", "tok1", "ios"⟩], []⟩ : DB)
      "g1" "u1" 1000 "image/jpeg" "a.jpg" "p1" 7 50).db "g1" "u1" 0 =
      [⟨"u2", "tok1", "ios"⟩] := by
  refine ⟨by decide, by decide, by decide, by decide⟩

/-- C9: confirm_upload reaches the photos insert and the daily_sends insert
with no membership check and no daily-limit check: for a fresh photo id,
the request of a caller with no daily-send record succeeds and both rows
are inserted even though the caller need not be a member (the response is
invariant under replacing the membership table by anything); and for a
caller who already has the daily-send record, the photo row is still
inserted before the ledger insert fails. -/
theorem confirm_upload_unchecked (db : DB) (pid g u : String) (today now : Nat)
    (hfresh : photoIdExists db pid = false) :
    (hasSentToday db u g today = false →
      (confirm_upload db pid g u today now).resp = Except.ok () ∧
      photoIdExists (confirm_upload db pid g u today now).db pid = true ∧
      hasSentToday (confirm_upload db pid g u today now).db u g today = true) ∧
    (hasSentToday db u g today = true →
      (∃ e, (confirm_upload db pid g u today now).resp = Except.error e) ∧
      photoIdExists (confirm_upload db pid g u today now).db pid = true) ∧
    (∀ gm, (confirm_upload { db with groupMembers := gm } pid g u today now).resp
        = (confirm_upload db pid g u today now).resp) := by
  simp only [photoIdExists] at hfresh
  refine ⟨?_, ?_, ?_⟩
  · intro hs
    simp only [hasSentToday] at hs
    unfold confirm_upload insertPhoto insertDailySend
    simp [photoIdExists, hasSentToday, List.any_append, hfresh, hs]
  · intro hs
    simp only [hasSentToday] at hs
    unfold confirm_upload insertPhoto insertDailySend
    simp [photoIdExists, hasSentToday, List.any_append, hfresh, hs]
  · intro gm
    unfold confirm_upload insertPhoto insertDailySend
    by_cases hs : hasSentToday db u g today = true
    · simp only [hasSentToday] at hs
      simp [photoIdExists, hasSentToday, hfresh, hs]
    · rw [Bool.not_eq_true] at hs
      simp only [hasSentToday] at hs
      simp [photoIdExists, hasSentToday, hfresh, hs]

/-- C9 witness: the behavior evaluated on a store with no membership rows
where the caller already has the daily-send record for the day. -/
theorem confirm_upload_unchecked_witness :
    photoIdExists (confirm_upload (⟨[], [], [], [⟨"u1", "g1", 7⟩],
      [], [], [], []⟩ : DB) "p1" "g1" "u1" 7 50).db "p1" = true ∧
    (confirm_upload (⟨[], [], [], [], [], [], [], []⟩ : DB)
      "p1" "g1" "u1" 7 50).resp = Except.ok () := by
  have h1 := confirm_upload_unchecked
    (⟨[], [], [], [⟨"u1", "g1", 7⟩], [], [], [], []⟩ : DB)
    "p1" "g1" "u1" 7 50 (by decide)
  have h2 := confirm_upload_unchecked
    (⟨[], [], [], [], [], [], [], []⟩ : DB) "p1" "g1" "u1" 7 50 (by decide)
  exact ⟨(h1.2.1 (by decide)).2, (h2.1 (by decide)).1⟩

/-- Helper: membership is preserved by the insertion step of the
newest-first ordering. -/
theorem mem_insertByCreatedDesc (p a : Photo) (l : List Photo) :
    a ∈ insertByCreatedDesc p l ↔ a = p ∨ a ∈ l := by
  induction l with
  | nil => simp [insertByCreatedDesc]
  | cons q qs ih =>
    unfold insertByCreatedDesc
    by_cases h : p.createdAt ≥ q.createdAt
    · rw [if_pos h]
      simp [List.mem_cons]
    · rw [if_neg h]
      simp [List.mem_cons, ih]
      tauto

/-- Helper: the newest-first ordering is a permutation in the membership
sense. -/
theorem mem_orderByCreatedDesc (a : Photo) (l : List Photo) :
    a ∈ orderByCreatedDesc l ↔ a ∈ l := by
  induction l with
  | nil => simp [orderByCreatedDesc]
  | cons p ps ih =>
    simp [orderByCreatedDesc, mem_insertByCreatedDesc, ih, List.mem_cons]

/-- C3: the claim says a photo whose expiry equals now is never returned.
On the code it is: the listing query filters with gte on expires_at
(photos.py line 191), so a photo with expires_at exactly equal to now is
included in the response. -/
theorem C3_counterexample :
    get_todays_photos (⟨[], [], [⟨"g1", "u1", true⟩], [],
      [⟨"p1", "g1", "u1", "path1", 5, 100⟩], [], [], []⟩ : DB) "g1" "u1" 100 =
      Except.ok [⟨"p1", "g1", "u1", "Unknown", "signed:path1", 5, 100⟩] := by
  decide

/-- C3 (amended): for a caller with active membership, the listing returns
exactly the photos of the group whose expires_at is at least now: every
returned view is unexpired in the weak sense (expiry at or after now) and
belongs to the group, and every stored photo of the group with expiry at
or after now appears in the result. Photos with expiry strictly in the
past are never returned, but a photo expiring exactly at now is. -/
theorem get_todays_photos_unexpired (db : DB) (g u : String) (now : Nat)
    (views : List PhotoView)
    (h : get_todays_photos db g u now = Except.ok views) :
    (∀ v ∈ views, now ≤ v.expiresAt ∧ v.groupId = g) ∧
    (∀ p ∈ db.photos, p.groupId = g → now ≤ p.expiresAt →
      ∃ v ∈ views, v.id = p.id ∧ v.expiresAt = p.expiresAt) := by
  by_cases hm : hasActiveMembership db g u = true
  · have hview : views = (orderByCreatedDesc
        (db.photos.filter (fun p => p.groupId == g && p.expiresAt ≥ now))).map
        (fun p => ⟨p.id, p.groupId, p.senderId, profileFirstName db p.senderId,
          signedUrl p.storagePath, p.createdAt, p.expiresAt⟩) := by
      unfold get_todays_photos at h
      rw [hm] at h
      simp only [Bool.not_true, Bool.false_eq_true, if_false, ite_false,
        Except.ok.injEq] at h
      exact h.symm
    constructor
    · intro v hv
      rw [hview] at hv
      obtain ⟨p, hp, rfl⟩ := List.mem_map.mp hv
      have hp2 := (mem_orderByCreatedDesc _ _).mp hp
      obtain ⟨hpin, hpred⟩ := List.mem_filter.mp hp2
      simp only [Bool.and_eq_true, beq_iff_eq, decide_eq_true_eq] at hpred
      exact ⟨hpred.2, hpred.1⟩
    · intro p hp hg he
      refine ⟨⟨p.id, p.groupId, p.senderId, profileFirstName db p.senderId,
        signedUrl p.storagePath, p.createdAt, p.expiresAt⟩, ?_, rfl, rfl⟩
      rw [hview]
      refine List.mem_map_of_mem _ ?_
      refine (mem_orderByCreatedDesc _ _).mpr ?_
      refine List.mem_filter.mpr ⟨hp, ?_⟩
      simp [hg, he]
  · rw [Bool.not_eq_true] at hm
    unfold get_todays_photos at h
    rw [hm] at h
    simp at h

/-- C3 witness: the amended statement evaluated on a store with one photo
expiring exactly at the query time. -/
theorem get_todays_photos_unexpired_witness :
    get_todays_photos (⟨[], [], [⟨"g1", "u1", true⟩], [],
      [⟨"p1", "g1", "u1", "path1", 5, 100⟩], [], [], []⟩ : DB) "g1" "u1" 100 =
      Except.ok [⟨"p1", "g1", "u1", "Unknown", "signed:path1", 5, 100⟩] ∧
    100 ≤ (⟨"p1", "g1", "u1", "Unknown", "signed:path1", 5, 100⟩ : PhotoView).expiresAt := by
  refine ⟨by decide, ?_⟩
  have h := get_todays_photos_unexpired
    (⟨[], [], [⟨"g1", "u1", true⟩], [],
      [⟨"p1", "g1", "u1", "path1", 5, 100⟩], [], [], []⟩ : DB) "g1" "u1" 100
    [⟨"p1", "g1", "u1", "Unknown", "signed:path1", 5, 100⟩] (by decide)
  exact (h.1 _ (by simp)).1

/-- Helper: reactivating the membership row found for (group, user) makes
the caller an active member. -/
theorem hasActiveMembership_setActive (db : DB) (g u : String) (m : Membership)
    (hm : findMembershipRow db g u = some m) :
    hasActiveMembership (setMembershipActive db g u) g u = true := by
  obtain ⟨hmem, hpred⟩ := head_filter_spec _ _ _ hm
  simp only [Bool.and_eq_true, beq_iff_eq] at hpred
  unfold hasActiveMembership setMembershipActive
  rw [List.any_eq_true]
  refine ⟨{ m with isActive := true }, ?_, ?_⟩
  · refine List.mem_map.mpr ⟨m, hmem, ?_⟩
    rw [if_pos (by simp [hpred.1, hpred.2])]
  · simp [hpred.1, hpred.2]

/-- Helper: inserting a fresh active membership row makes the caller an
active member. -/
theorem hasActiveMembership_append (db : DB) (g u : String) :
    hasActiveMembership
      { db with groupMembers := db.groupMembers ++ [⟨g, u, true⟩] } g u = true := by
  simp [hasActiveMembership, List.any_append]

/-- Helper: after marking an invite code used, no invite under that code is
valid any more, at any later query time: the update hits every row with
the code, and the validity filter requires a null used_at. -/
theorem findValidInvite_markInviteUsed (db : DB) (c : String) (now : Nat)
    (u : String) (now2 : Nat) :
    findValidInvite (markInviteUsed db c now u) c now2 = none := by
  have hnil : (markInviteUsed db c now u).invites.filter
      (fun i => validInvite i c now2) = [] := by
    rw [List.filter_eq_nil_iff]
    intro i hi
    obtain ⟨j, hj, rfl⟩ := List.mem_map.mp hi
    by_cases hc : (j.code == c) = true
    · rw [if_pos hc]
      simp [validInvite]
    · rw [if_neg hc]
      rw [Bool.not_eq_true] at hc
      simp [validInvite, hc]
  unfold findValidInvite
  rw [hnil]
  rfl

/-- C6: redeeming a valid (unredeemed, unexpired) invite with its code
supplied in lower case succeeds, because redeem_invite uppercases the code
before matching; it leaves the redeemer with an active membership of the
target group (reactivating an inactive row or inserting a fresh one), and
afterwards any redemption of the same code by any caller at any time fails
with the 404 not-found error, because the invite no longer has a null
used_at. -/
theorem redeem_invite_case_insensitive_single_use
    (db : DB) (inv : Invite) (u : String) (now : Nat)
    (hcode : strUpper (strLower inv.code) = inv.code)
    (hfind : findValidInvite db inv.code now = some inv)
    (hmem : ∀ m, findMembershipRow db inv.groupId u = some m → m.isActive = false) :
    (redeem_invite db (strLower inv.code) u now).resp = Except.ok inv.groupId ∧
    hasActiveMembership (redeem_invite db (strLower inv.code) u now).db
      inv.groupId u = true ∧
    ∀ u2 now2, (redeem_invite (redeem_invite db (strLower inv.code) u now).db
        (strLower inv.code) u2 now2).resp =
      Except.error ⟨404, "Invalid or expired invite code"⟩ := by
  cases hrow : findMembershipRow db inv.groupId u with
  | none =>
    have hstep : redeem_invite db (strLower inv.code) u now =
        ⟨Except.ok inv.groupId,
          markInviteUsed { db with groupMembers :=
            db.groupMembers ++ [⟨inv.groupId, u, true⟩] } inv.code now u⟩ := by
      unfold redeem_invite
      rw [hcode]
      simp only [hfind, hrow]
    rw [hstep]
    refine ⟨rfl, ?_, ?_⟩
    · exact hasActiveMembership_append _ _ _
    · intro u2 now2
      unfold redeem_invite
      rw [hcode, findValidInvite_markInviteUsed]
  | some m =>
    have hinactive : m.isActive = false := hmem m hrow
    have hstep : redeem_invite db (strLower inv.code) u now =
        ⟨Except.ok inv.groupId,
          markInviteUsed (setMembershipActive db inv.groupId u) inv.code now u⟩ := by
      unfold redeem_invite
      rw [hcode]
      simp [hfind, hrow, hinactive]
    rw [hstep]
    refine ⟨rfl, ?_, ?_⟩
    · exact hasActiveMembership_setActive _ _ _ m hrow
    · intro u2 now2
      unfold redeem_invite
      rw [hcode, findValidInvite_markInviteUsed]

/-- C6 witness: the invite of the spec example scenario, code 7K9XQ2,
redeemed as 7k9xq2 by a non-member, then redeemed a second time by another
caller. -/
theorem redeem_invite_case_insensitive_single_use_witness :
    (redeem_invite (⟨[], [], [], [], [],
      [⟨"7K9XQ2", "g1", "+14155550100", "u0", 0, 604800, none, none⟩],
      [], []⟩ : DB) "7k9xq2" "u9" 100).resp = Except.ok "g1" ∧
    hasActiveMembership (redeem_invite (⟨[], [], [], [], [],
      [⟨"7K9XQ2", "g1", "+14155550100", "u0", 0, 604800, none, none⟩],
      [], []⟩ : DB) "7k9xq2" "u9" 100).db "g1" "u9" = true ∧
    (redeem_invite (redeem_invite (⟨[], [], [], [], [],
      [⟨"7K9XQ2", "g1", "+14155550100", "u0", 0, 604800, none, none⟩],
      [], []⟩ : DB) "7k9xq2" "u9" 100).db "7k9xq2" "u7" 200).resp =
      Except.error ⟨404, "Invalid or expired invite code"⟩ := by
  have h := redeem_invite_case_insensitive_single_use
    (⟨[], [], [], [], [],
      [⟨"7K9XQ2", "g1", "+14155550100", "u0", 0, 604800, none, none⟩],
      [], []⟩ : DB)
    ⟨"7K9XQ2", "g1", "+14155550100", "u0", 0, 604800, none, none⟩
    "u9" 100 (by decide) (by decide)
    (fun m hm => by
      have hnone : findMembershipRow (⟨[], [], [], [], [],
        [⟨"7K9XQ2", "g1", "+14155550100", "u0", 0, 604800, none, none⟩],
        [], []⟩ : DB) "g1" "u9" = none := by decide
      rw [hnone] at hm
      exact Option.noConfusion hm)
  exact ⟨h.1, h.2.1, h.2.2 "u7" 200⟩

/-- Helper: every draw from the invite alphabet is a character of the
alphabet. -/
theorem invitePick_mem (n : Nat) : invitePick n ∈ inviteAlphabet := by
  have h36 : ∀ m, m < 36 → inviteAlphabet.getD m 'A' ∈ inviteAlphabet := by decide
  exact h36 (n % 36) (Nat.mod_lt _ (by decide))

/-- C8: the claim says codes come from an unambiguous alphabet and that
generation is retried until the code is unique among live invites. On the
code, the alphabet is the full 36-character uppercase-plus-digits set and
contains both the letter O and the digit 0 (a canonically ambiguous pair,
reachable in a generated code), and there is no retry: with a live invite
already carrying code AAAAAA, processing a new phone whose single
generation draw collides performs exactly one generation call, persists
nothing, and silently skips the phone. -/
theorem C8_counterexample :
    generate_invite_code (fun _ => 0) 0 = "AAAAAA" ∧
    ('O' ∈ inviteAlphabet ∧ '0' ∈ inviteAlphabet) ∧
    liveCodeExists (⟨[], [], [], [], [],
      [⟨"AAAAAA", "g0", "+15550000001", "u0", 0, 604800, none, none⟩],
      [], []⟩ : DB) "AAAAAA" 100 = true ∧
    processInvitePhone (⟨[], [], [], [], [],
      [⟨"AAAAAA", "g0", "+15550000001", "u0", 0, 604800, none, none⟩],
      [], []⟩ : DB) "g1" "u1" "+14155550100" 100 (fun _ => 0) 0 =
      ((⟨[], [], [], [], [],
        [⟨"AAAAAA", "g0", "+15550000001", "u0", 0, 604800, none, none⟩],
        [], []⟩ : DB), none, 1) := by
  refine ⟨by decide, ⟨by decide, by decide⟩, by decide, by decide⟩

/-- C8 (amended): every generated invite code is 6 characters drawn from
the 36-character uppercase-letter-and-digit alphabet (which includes the
ambiguous characters O and 0), and generation is not retried on collision:
when the single generated code collides with a live invite code, the
send_invites loop makes exactly one generation call for the phone, persists
no invite, and reports nothing for it. -/
theorem invite_code_shape_no_retry (stream : Nat → Nat) (k : Nat) (db : DB)
    (g u phone : String) (now : Nat)
    (hnew : hasRecentInvite db phone g now = false)
    (hcol : liveCodeExists db (generate_invite_code stream k) now = true) :
    (generate_invite_code stream k).length = 6 ∧
    (∀ c ∈ (generate_invite_code stream k).data, c ∈ inviteAlphabet) ∧
    processInvitePhone db g u phone now stream k = (db, none, 1) := by
  refine ⟨rfl, ?_, ?_⟩
  · intro c hc
    simp only [generate_invite_code] at hc
    obtain ⟨i, hi, rfl⟩ := List.mem_map.mp hc
    exact invitePick_mem _
  · unfold processInvitePhone insertInvite
    simp [hnew, hcol]

/-- C8 witness: the amended statement evaluated on the colliding draw. -/
theorem invite_code_shape_no_retry_witness :
    processInvitePhone (⟨[], [], [], [], [],
      [⟨"AAAAAA", "g0", "+15550000001", "u0", 0, 604800, none, none⟩],
      [], []⟩ : DB) "g1" "u1" "+14155550100" 100 (fun _ => 0) 0 =
      ((⟨[], [], [], [], [],
        [⟨"AAAAAA", "g0", "+15550000001", "u0", 0, 604800, none, none⟩],
        [], []⟩ : DB), none, 1) ∧
    (generate_invite_code (fun _ => 0) 0).length = 6 := by
  have h := invite_code_shape_no_retry (fun _ => 0) 0
    (⟨[], [], [], [], [],
      [⟨"AAAAAA", "g0", "+15550000001", "u0", 0, 604800, none, none⟩],
      [], []⟩ : DB) "g1" "u1" "+14155550100" 100 (by decide) (by decide)
  exact ⟨h.2.2, h.1⟩

/-- C10: invite redemption performs no group-cap check: for any store where
the code resolves to a valid invite and the caller has no membership row in
the target group, redemption succeeds and the caller ends with one more
active membership than before, whatever that number was (in particular a
caller with five active memberships ends with six). -/
theorem redeem_invite_ignores_cap (db : DB) (inv : Invite) (code u : String)
    (now : Nat)
    (hfind : findValidInvite db (strUpper code) now = some inv)
    (hrow : findMembershipRow db inv.groupId u = none) :
    (redeem_invite db code u now).resp = Except.ok inv.groupId ∧
    activeMembershipCount (redeem_invite db code u now).db u =
      activeMembershipCount db u + 1 := by
  have hstep : redeem_invite db code u now =
      ⟨Except.ok inv.groupId,
        markInviteUsed { db with groupMembers :=
          db.groupMembers ++ [⟨inv.groupId, u, true⟩] } (strUpper code) now u⟩ := by
    unfold redeem_invite
    simp only [hfind, hrow]
  rw [hstep]
  refine ⟨rfl, ?_⟩
  show activeMembershipCount
    { db with groupMembers := db.groupMembers ++ [⟨inv.groupId, u, true⟩] } u = _
  unfold activeMembershipCount
  simp [List.filter_append]

/-- C10 witness: a caller with five active memberships redeems a valid
invite to a sixth group and ends with six. -/
theorem redeem_invite_ignores_cap_witness :
    (redeem_invite (⟨[], [], [⟨"g1", "u9", true⟩, ⟨"g2", "u9", true⟩,
      ⟨"g3", "u9", true⟩, ⟨"g4", "u9", true⟩, ⟨"g5", "u9", true⟩], [], [],
      [⟨"7K9XQ2", "g6", "+14155550100", "u0", 0, 604800, none, none⟩],
      [], []⟩ : DB) "7k9xq2" "u9" 100).resp = Except.ok "g6" ∧
    activeMembershipCount (redeem_invite (⟨[], [],
      [⟨"g1", "u9", true⟩, ⟨"g2", "u9", true⟩, ⟨"g3", "u9", true⟩,
      ⟨"g4", "u9", true⟩, ⟨"g5", "u9", true⟩], [], [],
      [⟨"7K9XQ2", "g6", "+14155550100", "u0", 0, 604800, none, none⟩],
      [], []⟩ : DB) "7k9xq2" "u9" 100).db "u9" = 6 := by
  have h := redeem_invite_ignores_cap
    (⟨[], [], [⟨"g1", "u9", true⟩, ⟨"g2", "u9", true⟩, ⟨"g3", "u9", true⟩,
      ⟨"g4", "u9", true⟩, ⟨"g5", "u9", true⟩], [], [],
      [⟨"7K9XQ2", "g6", "+14155550100", "u0", 0, 604800, none, none⟩],
      [], []⟩ : DB)
    ⟨"7K9XQ2", "g6", "+14155550100", "u0", 0, 604800, none, none⟩
    "7k9xq2" "u9" 100 (by decide) (by decide)
  exact ⟨h.1, h.2.trans (by decide)⟩

end Dayly
